import Mathlib

/-!
# PlantPalette identification pipeline — verification development

Shallow embedding of `src/server/main.py`, endpoint `identify_plant`.
Network interactions (the PlantNet classification call and the per-image
OpenAI captioning calls) are modelled as oracles supplied to the function:
the classifier response is an `Except HttpError PlantNetJson` and the
captioning service is a map from the image index to
`Except CaptionServiceError (Option String)` (an exception, or a response
whose `choices[0].message.content` may be `None`).  Python floats are
modelled by `ℚ`.  Images are modelled by their filename and decoded pixel
dimensions, which is all the pipeline logic inspects.
-/

namespace PlantPalette

/-- An uploaded image: filename plus decoded pixel dimensions. -/
structure ImageFile where
  filename : String
  width : ℕ
  height : ℕ
deriving DecidableEq

/-- PIL `round_aspect` (inside `Image.thumbnail`):
`max(min(math.floor(number), math.ceil(number), key=key), 1)`;
Python's two-argument `min` with a key returns the first argument on a tie. -/
def roundAspect (number : ℚ) (key : ℤ → ℚ) : ℤ :=
  max (if key ⌊number⌋ ≤ key ⌈number⌉ then ⌊number⌋ else ⌈number⌉) 1

/-- Size computation of PIL `Image.thumbnail((1280, 1280))` (main.py line 40):
no change when the image already fits the box, otherwise the long edge is
scaled to 1280 and the short edge follows the aspect ratio, rounded to the
adjacent integer closer to the exact ratio and clamped to at least 1. -/
def thumbnailSize (w h : ℕ) : ℕ × ℕ :=
  if 1280 ≥ w ∧ 1280 ≥ h then (w, h)
  else
    let aspect : ℚ := (w : ℚ) / (h : ℚ)
    if (1 : ℚ) ≥ aspect then
      ((roundAspect (1280 * aspect) (fun n => |aspect - (n : ℚ) / 1280|)).toNat, 1280)
    else
      (1280, (roundAspect (1280 / aspect)
        (fun n => if n = 0 then 0 else |aspect - 1280 / (n : ℚ)|)).toNat)

/-- The normalized copy of an image that is sent to PlantNet. -/
structure NormalizedImage where
  width : ℕ
  height : ℕ
  mode : String
  format : String
  quality : ℕ
deriving DecidableEq

/-- main.py lines 38–42: `Image.open(...).convert("RGB")`, `img.thumbnail((1280, 1280))`,
`img.save(buf, format="JPEG", quality=90)`. -/
def normalizeImage (w h : ℕ) : NormalizedImage :=
  { width := (thumbnailSize w h).1
    height := (thumbnailSize w h).2
    mode := "RGB"
    format := "JPEG"
    quality := 90 }

/-- One entry of the multi-part `files` list sent to PlantNet. -/
inductive Part where
  | imageEntry (filename : String)
  | organEntry (organ : String)
deriving DecidableEq

/-- main.py lines 36–46: the loop building the multi-part `files` list.
For each image an `("images", ...)` entry is appended, followed by an
`("organs", organs[idx])` entry when `organs and idx < len(organs)`
(`organs[idx]?` is `some` exactly in that case, a Python `None` or empty
`organs` behaving the same as an exhausted list). -/
def buildFiles (organs : List String) : ℕ → List ImageFile → List Part
  | _, [] => []
  | idx, img :: rest =>
    Part.imageEntry img.filename ::
      match organs[idx]? with
      | some o => Part.organEntry o :: buildFiles organs (idx + 1) rest
      | none => buildFiles organs (idx + 1) rest

/-- The ordered sequence of `organs` field values in a multi-part list. -/
def organValues (parts : List Part) : List String :=
  parts.filterMap fun p =>
    match p with
    | Part.organEntry o => some o
    | _ => none

/-- The ordered sequence of `images` field values (filenames) in a multi-part list. -/
def imageValues (parts : List Part) : List String :=
  parts.filterMap fun p =>
    match p with
    | Part.imageEntry f => some f
    | _ => none

/-- The nested `species` JSON object of a PlantNet candidate; only the
`scientificNameWithoutAuthor` field is consumed. -/
structure SpeciesObj where
  scientificNameWithoutAuthor : Option String
deriving DecidableEq

/-- One entry of the PlantNet `results` list; `score` and `species` may be absent. -/
structure RawCandidate where
  score : Option ℚ
  species : Option SpeciesObj
deriving DecidableEq

/-- The successful PlantNet JSON body: an ordered `results` list. -/
structure PlantNetJson where
  results : List RawCandidate
deriving DecidableEq

/-- An `httpx.HTTPStatusError`: the remote status code and the message `str(e)`. -/
structure HttpError where
  status : ℕ
  message : String
deriving DecidableEq

/-- An exception raised by one fallback captioning call
(timeout, malformed response, remote error). -/
structure CaptionServiceError where
  message : String
deriving DecidableEq

/-- main.py line 69: `first.get("species", {}).get("scientificNameWithoutAuthor", "Unknown")`. -/
def extractSpecies (c : RawCandidate) : String :=
  ((c.species.getD { scientificNameWithoutAuthor := none }).scientificNameWithoutAuthor).getD
    "Unknown"

/-- main.py lines 62–71: extract the top prediction and its confidence.
Empty `results` leaves `best = None` and `confidence = 0.0`; otherwise
`confidence = float(first.get("score", 0.0))` and `best` is the extracted
scientific name. -/
def extractBest (results : List RawCandidate) : Option String × ℚ :=
  match results with
  | [] => (none, 0)
  | first :: _ => (some (extractSpecies first), first.score.getD 0)

/-- Python truthiness of the `OPENAI_API_KEY` environment value:
`None` and the empty string are falsy. -/
def truthy (s : Option String) : Bool :=
  match s with
  | none => false
  | some v => !v.isEmpty

/-- main.py line 77: `if confidence < 0.8 and OPENAI_KEY:`. -/
def boostGate (confidence : ℚ) (openaiKey : Option String) : Bool :=
  decide (confidence < 4 / 5) && truthy openaiKey

/-- One entry of `boost_captions`: `{"filename": ..., "caption": ...}`. -/
structure Caption where
  filename : String
  caption : String
deriving DecidableEq

/-- main.py line 101: `content.strip() if content is not None else "No caption returned"`. -/
def captionText (content : Option String) : String :=
  match content with
  | some s => s.trim
  | none => "No caption returned"

/-- main.py lines 80–102: the sequential per-image captioning loop.  The call
for image `idx` is the oracle value `capResp idx`; an exception propagates
(there is no `try`/`except` around the call), aborting the loop.  The second
component counts the captioning calls actually made. -/
def captionLoop (capResp : ℕ → Except CaptionServiceError (Option String)) :
    ℕ → List ImageFile → Except CaptionServiceError (List Caption) × ℕ
  | _, [] => (Except.ok [], 0)
  | idx, img :: rest =>
    match capResp idx with
    | Except.error e => (Except.error e, 1)
    | Except.ok content =>
      match captionLoop capResp (idx + 1) rest with
      | (Except.ok caps, k) =>
        (Except.ok ({ filename := img.filename, caption := captionText content } :: caps), k + 1)
      | (Except.error e, k) => (Except.error e, k + 1)

/-- What the caller receives: the error `JSONResponse` for a classifier HTTP
failure, the normal result dictionary, or an unhandled exception escaping the
endpoint (a request-level failure). -/
inductive Response where
  | errorPayload (status : ℕ) (message : String)
  | result (species : Option String) (confidence : ℚ) (status : String)
      (boost_captions : Option (List Caption))
  | crash (e : CaptionServiceError)
deriving DecidableEq

/-- The observable outcome of one request: the response, whether the boost
branch (main.py lines 77–79) was entered, and how many captioning calls ran. -/
structure RequestOutcome where
  response : Response
  boostAttempted : Bool
  captionCalls : ℕ
deriving DecidableEq

/-- main.py lines 25–109, endpoint `identify_plant`.  The multi-part payload
is built, the classifier oracle is consulted (an `HTTPStatusError` returns
the error `JSONResponse` at once), the top prediction is extracted, the boost
gate is evaluated, and the captioning loop runs when it holds.  The final
dictionary turns an empty `boost_captions` list into `None`
(`boost_captions if boost_captions else None`). -/
def identify_plant (openaiKey : Option String) (images : List ImageFile)
    (organs : List String) (no_reject : Bool)
    (pnResp : Except HttpError PlantNetJson)
    (capResp : ℕ → Except CaptionServiceError (Option String)) : RequestOutcome :=
  let _files := buildFiles organs 0 images
  match pnResp with
  | Except.error e =>
    { response := Response.errorPayload e.status e.message
      boostAttempted := false
      captionCalls := 0 }
  | Except.ok plantnetJson =>
    let bestConf := extractBest plantnetJson.results
    if boostGate bestConf.2 openaiKey then
      match captionLoop capResp 0 images with
      | (Except.error e, k) =>
        { response := Response.crash e, boostAttempted := true, captionCalls := k }
      | (Except.ok caps, k) =>
        { response := Response.result bestConf.1 bestConf.2 "boosted"
            (if caps.isEmpty then none else some caps)
          boostAttempted := true
          captionCalls := k }
    else
      { response := Response.result bestConf.1 bestConf.2 "plantnet_only" none
        boostAttempted := false
        captionCalls := 0 }

/-! ## Concrete sample inputs (request fixtures used to evaluate the model) -/

def imgA : ImageFile := { filename := "a.jpg", width := 100, height := 100 }

def imgB : ImageFile := { filename := "b.jpg", width := 200, height := 150 }

def candLow : RawCandidate :=
  { score := some (2 / 5), species := some { scientificNameWithoutAuthor := some "Ficus lyrata" } }

def candHigh : RawCandidate :=
  { score := some (23 / 25), species := some { scientificNameWithoutAuthor := some "Rosa damascena" } }

def candBare : RawCandidate := { score := none, species := none }

def jsonLow : PlantNetJson := { results := [candLow] }

def jsonHigh : PlantNetJson := { results := [candHigh] }

/-- A captioning oracle that always answers successfully, with a response
carrying no textual content. -/
def capOk : ℕ → Except CaptionServiceError (Option String) :=
  fun _ => Except.ok none

/-- A captioning oracle whose first call raises (e.g. a timeout) and whose
later calls succeed. -/
def capFailFirst : ℕ → Except CaptionServiceError (Option String) :=
  fun i => if i = 0 then Except.error { message := "timeout" } else Except.ok none

/-! ## Helper lemmas -/

/-- Unfolding of `identify_plant` when the classifier call raises. -/
theorem identify_plant_error_eq (openaiKey : Option String) (images : List ImageFile)
    (organs : List String) (no_reject : Bool) (e : HttpError)
    (capResp : ℕ → Except CaptionServiceError (Option String)) :
    identify_plant openaiKey images organs no_reject (Except.error e) capResp =
      { response := Response.errorPayload e.status e.message
        boostAttempted := false
        captionCalls := 0 } := rfl

/-- Unfolding of `identify_plant` when the classifier call succeeds. -/
theorem identify_plant_ok_eq (openaiKey : Option String) (images : List ImageFile)
    (organs : List String) (no_reject : Bool) (json : PlantNetJson)
    (capResp : ℕ → Except CaptionServiceError (Option String)) :
    identify_plant openaiKey images organs no_reject (Except.ok json) capResp =
      (if boostGate (extractBest json.results).2 openaiKey then
        match captionLoop capResp 0 images with
        | (Except.error e, k) =>
          { response := Response.crash e, boostAttempted := true, captionCalls := k }
        | (Except.ok caps, k) =>
          { response := Response.result (extractBest json.results).1 (extractBest json.results).2
              "boosted" (if caps.isEmpty then none else some caps)
            boostAttempted := true
            captionCalls := k }
      else
        { response := Response.result (extractBest json.results).1 (extractBest json.results).2
            "plantnet_only" none
          boostAttempted := false
          captionCalls := 0 }) := rfl

/-- In any produced result dictionary, `species` and `confidence` are the
extracted top prediction. -/
theorem identify_plant_result_fields (openaiKey : Option String) (images : List ImageFile)
    (organs : List String) (no_reject : Bool) (json : PlantNetJson)
    (capResp : ℕ → Except CaptionServiceError (Option String))
    (sp : Option String) (conf : ℚ) (st : String) (bc : Option (List Caption))
    (h : (identify_plant openaiKey images organs no_reject (Except.ok json) capResp).response =
      Response.result sp conf st bc) :
    sp = (extractBest json.results).1 ∧ conf = (extractBest json.results).2 := by
  rw [identify_plant_ok_eq] at h
  split at h
  · rcases hl : captionLoop capResp 0 images with ⟨res, k⟩
    rw [hl] at h
    cases res with
    | error e => simp at h
    | ok caps =>
      simp only [Response.result.injEq] at h
      exact ⟨h.1.symm, h.2.1.symm⟩
  · simp only [Response.result.injEq] at h
    exact ⟨h.1.symm, h.2.1.symm⟩

/-- A successful run of the captioning loop produces one caption per image,
tagged with the source filename, in input order. -/
theorem captionLoop_ok_spec (capResp : ℕ → Except CaptionServiceError (Option String)) :
    ∀ (imgs : List ImageFile) (idx : ℕ) (caps : List Caption) (k : ℕ),
      captionLoop capResp idx imgs = (Except.ok caps, k) →
      caps.map Caption.filename = imgs.map ImageFile.filename ∧ k = imgs.length := by
  intro imgs
  induction imgs with
  | nil =>
    intro idx caps k h
    rw [captionLoop] at h
    obtain ⟨h1, h2⟩ := Prod.mk.injEq .. ▸ h
    simp_all
  | cons img rest ih =>
    intro idx caps k h
    rw [captionLoop] at h
    cases hc : capResp idx with
    | error e => rw [hc] at h; simp at h
    | ok content =>
      rw [hc] at h
      rcases hl : captionLoop capResp (idx + 1) rest with ⟨res, k2⟩
      rw [hl] at h
      cases res with
      | error e => simp at h
      | ok caps2 =>
        simp only [Prod.mk.injEq, Except.ok.injEq] at h
        obtain ⟨hcaps, hk⟩ := h
        obtain ⟨h1, h2⟩ := ih (idx + 1) caps2 k2 hl
        subst hcaps hk h2
        simp [h1]

/-- If the call for the `j`-th image (0-based, counting from `idx`) raises
and all earlier calls succeed, the loop aborts after `j + 1` calls with that
exception. -/
theorem captionLoop_error_spec (capResp : ℕ → Except CaptionServiceError (Option String)) :
    ∀ (imgs : List ImageFile) (idx j : ℕ) (e : CaptionServiceError),
      j < imgs.length → capResp (idx + j) = Except.error e →
      (∀ j2, j2 < j → ∃ c, capResp (idx + j2) = Except.ok c) →
      captionLoop capResp idx imgs = (Except.error e, j + 1) := by
  intro imgs
  induction imgs with
  | nil => intro idx j e hj _ _; simp at hj
  | cons img rest ih =>
    intro idx j e hj he hprev
    rw [captionLoop]
    cases j with
    | zero =>
      simp only [Nat.add_zero] at he
      rw [he]
    | succ j2 =>
      obtain ⟨c, hc⟩ := hprev 0 (Nat.succ_pos _)
      rw [Nat.add_zero] at hc
      rw [hc]
      have hrec := ih (idx + 1) j2 e (Nat.lt_of_succ_lt_succ hj)
        (by rw [show idx + 1 + j2 = idx + (j2 + 1) from by omega]; exact he)
        (fun j3 hj3 => by
          obtain ⟨c3, hc3⟩ := hprev (j3 + 1) (Nat.succ_lt_succ hj3)
          exact ⟨c3, by rw [show idx + 1 + j3 = idx + (j3 + 1) from by omega]; exact hc3⟩)
      rw [hrec]

/-! ## Claims -/

/-- C1: on a successful primary-classifier call, the returned `status` is
`"boosted"` exactly when the extracted top confidence is strictly below 0.8
and the OpenAI credential is configured (truthy), and `"plantnet_only"` in
every other case (main.py lines 74–79). -/
theorem returned_status_boosted_iff (openaiKey : Option String) (images : List ImageFile)
    (organs : List String) (no_reject : Bool) (pnResp : Except HttpError PlantNetJson)
    (capResp : ℕ → Except CaptionServiceError (Option String))
    (sp : Option String) (conf : ℚ) (st : String) (bc : Option (List Caption))
    (h : (identify_plant openaiKey images organs no_reject pnResp capResp).response =
      Response.result sp conf st bc) :
    (st = "boosted" ↔ conf < 4 / 5 ∧ truthy openaiKey = true) ∧
      (st = "boosted" ∨ st = "plantnet_only") := by
  cases pnResp with
  | error e => rw [identify_plant_error_eq] at h; simp at h
  | ok json =>
    have hconf := (identify_plant_result_fields openaiKey images organs no_reject json capResp
      sp conf st bc h).2
    rw [identify_plant_ok_eq] at h
    split at h
    case isTrue hg =>
      rw [boostGate, Bool.and_eq_true, decide_eq_true_iff] at hg
      rcases hl : captionLoop capResp 0 images with ⟨res, k⟩
      rw [hl] at h
      cases res with
      | error e => simp at h
      | ok caps =>
        simp only [Response.result.injEq] at h
        obtain ⟨-, -, hst, -⟩ := h
        subst hst
        subst hconf
        exact ⟨⟨fun _ => hg, fun _ => rfl⟩, Or.inl rfl⟩
    case isFalse hg =>
      rw [boostGate, Bool.and_eq_true, decide_eq_true_iff] at hg
      simp only [Response.result.injEq] at h
      obtain ⟨-, -, hst, -⟩ := h
      subst hst
      subst hconf
      refine ⟨⟨fun habs => absurd habs (by decide), fun hc => absurd hc hg⟩, Or.inr rfl⟩

/-- C1 witness: a concrete high-confidence request stays in
`"plantnet_only"`. -/
theorem returned_status_boosted_iff_witness :
    ("plantnet_only" = "boosted" ↔ (23 / 25 : ℚ) < 4 / 5 ∧ truthy none = true) ∧
      ("plantnet_only" = "boosted" ∨ "plantnet_only" = "plantnet_only") :=
  returned_status_boosted_iff none [imgA] [] false (Except.ok jsonHigh) capOk
    (some "Rosa damascena") (23 / 25) "plantnet_only" none (by
      rw [identify_plant_ok_eq]
      have hbg : boostGate (extractBest jsonHigh.results).2 none = false := by
        simp [boostGate, truthy]
      rw [hbg]
      simp [extractBest, jsonHigh, candHigh, extractSpecies])

/-- C2: on a successful primary-classifier call (requests carry at least one
image), the returned `boost_captions` is non-null exactly when `status` is
`"boosted"`, and when non-null its length is at most the number of input
images (main.py lines 104–109: an empty list is turned into `None`). -/
theorem boost_captions_present_iff (openaiKey : Option String) (images : List ImageFile)
    (organs : List String) (no_reject : Bool) (pnResp : Except HttpError PlantNetJson)
    (capResp : ℕ → Except CaptionServiceError (Option String))
    (sp : Option String) (conf : ℚ) (st : String) (bc : Option (List Caption))
    (hne : images ≠ [])
    (h : (identify_plant openaiKey images organs no_reject pnResp capResp).response =
      Response.result sp conf st bc) :
    (bc ≠ none ↔ st = "boosted") ∧ ∀ l, bc = some l → l.length ≤ images.length := by
  cases pnResp with
  | error e => rw [identify_plant_error_eq] at h; simp at h
  | ok json =>
    rw [identify_plant_ok_eq] at h
    split at h
    case isTrue hg =>
      rcases hl : captionLoop capResp 0 images with ⟨res, k⟩
      rw [hl] at h
      cases res with
      | error e => simp at h
      | ok caps =>
        have hcaps := (captionLoop_ok_spec capResp images 0 caps k hl).1
        have hlen : caps.length = images.length := by
          have := congrArg List.length hcaps
          simpa using this
        have hcne : caps.isEmpty = false := by
          cases hcaps2 : caps with
          | nil => rw [hcaps2] at hlen; cases images with
            | nil => exact absurd rfl hne
            | cons a l => simp at hlen
          | cons a l => rfl
        simp only [hcne, Bool.false_eq_true, if_false, Response.result.injEq] at h
        obtain ⟨-, -, hst, hbc⟩ := h
        subst hst
        subst hbc
        refine ⟨⟨fun _ => rfl, fun _ => by simp⟩, ?_⟩
        intro l hl2
        obtain rfl : caps = l := Option.some.injEq .. ▸ hl2
        exact Nat.le_of_eq hlen
    case isFalse hg =>
      simp only [Response.result.injEq] at h
      obtain ⟨-, -, hst, hbc⟩ := h
      subst hst
      subst hbc
      refine ⟨⟨fun habs => absurd rfl habs, fun habs => absurd habs (by decide)⟩, ?_⟩
      intro l hl2
      exact absurd hl2 (by simp)

/-- C2 witness: a concrete low-confidence request with a configured fallback
credential returns one caption for its one image. -/
theorem boost_captions_present_iff_witness :
    ((some [{ filename := "a.jpg", caption := "No caption returned" }] : Option (List Caption)) ≠
        none ↔ "boosted" = "boosted") ∧
      ∀ l, (some [{ filename := "a.jpg", caption := "No caption returned" }] :
        Option (List Caption)) = some l → l.length ≤ [imgA].length :=
  boost_captions_present_iff (some "k") [imgA] [] false (Except.ok jsonLow) capOk
    (some "Ficus lyrata") (2 / 5) "boosted"
    (some [{ filename := "a.jpg", caption := "No caption returned" }]) (by simp) (by
      rw [identify_plant_ok_eq]
      have hbg : boostGate (extractBest jsonLow.results).2 (some "k") = true := by
        simp only [jsonLow, candLow, extractBest, boostGate, truthy, Bool.and_eq_true,
          decide_eq_true_iff]
        exact ⟨by norm_num, rfl⟩
      rw [hbg]
      simp [captionLoop, capOk, captionText, extractBest, jsonLow, candLow, extractSpecies,
        imgA])

/-- C3: when the primary classifier responds successfully with an empty
`results` list, any produced result has `species = None` (the sentinel) and
`confidence = 0.0`, and the boost branch is entered whenever the OpenAI
credential is configured, since `0.0 < 0.8` (main.py lines 62–71 and 77). -/
theorem empty_results_sentinel_and_gate (openaiKey : Option String) (images : List ImageFile)
    (organs : List String) (no_reject : Bool)
    (capResp : ℕ → Except CaptionServiceError (Option String)) :
    (∀ sp conf st bc,
      (identify_plant openaiKey images organs no_reject (Except.ok { results := [] })
          capResp).response = Response.result sp conf st bc → sp = none ∧ conf = 0) ∧
      (truthy openaiKey = true →
        (identify_plant openaiKey images organs no_reject (Except.ok { results := [] })
          capResp).boostAttempted = true) := by
  constructor
  · intro sp conf st bc h
    have := identify_plant_result_fields openaiKey images organs no_reject { results := [] }
      capResp sp conf st bc h
    simpa [extractBest] using this
  · intro ht
    rw [identify_plant_ok_eq]
    have hbg : boostGate (extractBest ([] : List RawCandidate)).2 openaiKey = true := by
      rw [boostGate, extractBest]
      simp [ht]
    rw [hbg]
    simp only [if_true]
    rcases hl : captionLoop capResp 0 images with ⟨res, k⟩
    cases res with
    | error e => rfl
    | ok caps => rfl

/-- C3 witness: a concrete empty-results request with a configured credential
enters the boost branch. -/
theorem empty_results_sentinel_and_gate_witness :
    (identify_plant (some "k") [imgA] [] false (Except.ok { results := [] })
      capOk).boostAttempted = true :=
  (empty_results_sentinel_and_gate (some "k") [imgA] [] false capOk).2 rfl

/-- C4: when the primary classification service returns a non-success HTTP
status, the endpoint returns at once an error payload carrying the remote
status code as the HTTP status (main.py lines 58–60): no identification
fields are produced, the boost branch is never entered, and no captioning
call is made. -/
theorem classifier_http_error_terminal (openaiKey : Option String) (images : List ImageFile)
    (organs : List String) (no_reject : Bool)
    (capResp : ℕ → Except CaptionServiceError (Option String)) (e : HttpError) :
    identify_plant openaiKey images organs no_reject (Except.error e) capResp =
      { response := Response.errorPayload e.status e.message
        boostAttempted := false
        captionCalls := 0 } := rfl

theorem organValues_image_cons (f : String) (parts : List Part) :
    organValues (Part.imageEntry f :: parts) = organValues parts := rfl

theorem organValues_organ_cons (o : String) (parts : List Part) :
    organValues (Part.organEntry o :: parts) = o :: organValues parts := rfl

theorem imageValues_image_cons (f : String) (parts : List Part) :
    imageValues (Part.imageEntry f :: parts) = f :: imageValues parts := rfl

theorem imageValues_organ_cons (o : String) (parts : List Part) :
    imageValues (Part.organEntry o :: parts) = imageValues parts := rfl

/-- The `organs` entries of the multi-part list built from index `idx` are the
organ tags from position `idx` on, cut off at the number of images. -/
theorem buildFiles_organValues (organs : List String) :
    ∀ (imgs : List ImageFile) (idx : ℕ),
      organValues (buildFiles organs idx imgs) = (organs.drop idx).take imgs.length := by
  intro imgs
  induction imgs with
  | nil => intro idx; simp [buildFiles, organValues]
  | cons img rest ih =>
    intro idx
    rw [buildFiles]
    cases hidx : organs[idx]? with
    | some o =>
      have hlt : idx < organs.length := by
        by_contra hge
        rw [List.getElem?_eq_none (Nat.le_of_not_lt hge)] at hidx
        exact Option.noConfusion hidx
      have hdrop : organs.drop idx = o :: organs.drop (idx + 1) := by
        rw [List.drop_eq_getElem_cons hlt]
        congr 1
        have hg := List.getElem?_eq_getElem hlt
        rw [hidx] at hg
        exact (Option.some.injEq .. ▸ hg).symm
      rw [organValues_image_cons, organValues_organ_cons, ih (idx + 1), hdrop,
        List.length_cons, List.take_succ_cons]
    | none =>
      have hge : organs.length ≤ idx := by
        by_contra hlt
        rw [List.getElem?_eq_getElem (Nat.lt_of_not_le hlt)] at hidx
        exact Option.noConfusion hidx
      have hdrop : organs.drop idx = [] := List.drop_eq_nil_of_le hge
      have hdrop2 : organs.drop (idx + 1) = [] :=
        List.drop_eq_nil_of_le (Nat.le_succ_of_le hge)
      rw [organValues_image_cons, ih (idx + 1), hdrop, hdrop2]
      simp

/-- The `images` entries of the multi-part list are exactly the input
filenames, in order. -/
theorem buildFiles_imageValues (organs : List String) :
    ∀ (imgs : List ImageFile) (idx : ℕ),
      imageValues (buildFiles organs idx imgs) = imgs.map ImageFile.filename := by
  intro imgs
  induction imgs with
  | nil => intro idx; simp [buildFiles, imageValues]
  | cons img rest ih =>
    intro idx
    rw [buildFiles]
    cases organs[idx]? with
    | some o =>
      rw [imageValues_image_cons, imageValues_organ_cons, ih (idx + 1), List.map_cons]
    | none =>
      rw [imageValues_image_cons, ih (idx + 1), List.map_cons]

/-- C7: in the multi-part request, the sequence of `organs` entries is the
organ-tag sequence truncated to the number of images and the sequence of
`images` entries is the input image sequence; since the PlantNet API pairs
the two field arrays positionally, the organ tag at index `i` is attached to
the image at index `i`, and when the tag sequence is shorter the remaining
images receive no tag. -/
theorem organ_tags_positionally_aligned (images : List ImageFile) (organs : List String) :
    organValues (buildFiles organs 0 images) = organs.take images.length ∧
      imageValues (buildFiles organs 0 images) = images.map ImageFile.filename := by
  refine ⟨?_, buildFiles_imageValues organs images 0⟩
  have h := buildFiles_organValues organs images 0
  rwa [List.drop_zero] at h

/-- C5 counterexample: a concrete two-image request enters the fallback
captioning stage, the captioning call for the first image raises, and —
contrary to the claim — the failure is not recovered with a placeholder
caption: it escalates to a request-level failure after a single call, so no
caption is produced for the remaining image. -/
theorem caption_failure_escalates_cex :
    (identify_plant (some "k") [imgA, imgB] [] false (Except.ok jsonLow)
        capFailFirst).boostAttempted = true ∧
      (identify_plant (some "k") [imgA, imgB] [] false (Except.ok jsonLow)
        capFailFirst).response = Response.crash { message := "timeout" } ∧
      (identify_plant (some "k") [imgA, imgB] [] false (Except.ok jsonLow)
        capFailFirst).captionCalls = 1 := by
  rw [identify_plant_ok_eq]
  have hbg : boostGate (extractBest jsonLow.results).2 (some "k") = true := by
    simp only [jsonLow, candLow, extractBest, boostGate, truthy, Bool.and_eq_true,
      decide_eq_true_iff]
    exact ⟨by norm_num, rfl⟩
  rw [hbg]
  have hloop : captionLoop capFailFirst 0 [imgA, imgB] =
      (Except.error { message := "timeout" }, 1) := by
    simp [captionLoop, capFailFirst]
  rw [hloop]
  exact ⟨rfl, rfl, rfl⟩

/-- C5 amended: when the fallback captioning stage is entered and the
captioning call for one image raises while all earlier calls succeeded, the
exception is NOT recovered: it escalates to a request-level failure after
that call, and no caption is produced for the remaining images (main.py
lines 80–102 have no `try`/`except` around the per-image call; only a
response with no textual content is replaced by the placeholder). -/
theorem caption_failure_escalates (openaiKey : Option String) (images : List ImageFile)
    (organs : List String) (no_reject : Bool) (pnResp : Except HttpError PlantNetJson)
    (capResp : ℕ → Except CaptionServiceError (Option String)) (i : ℕ)
    (e : CaptionServiceError)
    (hb : (identify_plant openaiKey images organs no_reject pnResp capResp).boostAttempted = true)
    (hi : i < images.length) (he : capResp i = Except.error e)
    (hprev : ∀ j, j < i → ∃ c, capResp j = Except.ok c) :
    (identify_plant openaiKey images organs no_reject pnResp capResp).response =
        Response.crash e ∧
      (identify_plant openaiKey images organs no_reject pnResp capResp).captionCalls = i + 1 := by
  cases pnResp with
  | error e2 => rw [identify_plant_error_eq] at hb; simp at hb
  | ok json =>
    rw [identify_plant_ok_eq] at hb ⊢
    have hloop := captionLoop_error_spec capResp images 0 i e hi (by simpa using he)
      (fun j hj => by simpa using hprev j hj)
    split at hb
    case isTrue hg =>
      rw [if_pos hg, hloop]
      exact ⟨rfl, rfl⟩
    case isFalse hg => simp at hb

/-- C5 amended, witness: at the concrete failing request the exception of the
first captioning call escapes as a request-level failure after one call. -/
theorem caption_failure_escalates_witness :
    (identify_plant (some "k") [imgA, imgB] [] false (Except.ok jsonLow)
        capFailFirst).response = Response.crash { message := "timeout" } ∧
      (identify_plant (some "k") [imgA, imgB] [] false (Except.ok jsonLow)
        capFailFirst).captionCalls = 1 :=
  caption_failure_escalates (some "k") [imgA, imgB] [] false (Except.ok jsonLow) capFailFirst
    0 { message := "timeout" }
    (by
      rw [identify_plant_ok_eq]
      have hbg : boostGate (extractBest jsonLow.results).2 (some "k") = true := by
        simp only [jsonLow, candLow, extractBest, boostGate, truthy, Bool.and_eq_true,
          decide_eq_true_iff]
        exact ⟨by norm_num, rfl⟩
      rw [hbg, if_pos rfl]
      rcases hl : captionLoop capFailFirst 0 [imgA, imgB] with ⟨res, k⟩
      cases res <;> rfl)
    (by simp) rfl (fun j hj => absurd hj (Nat.not_lt_zero j))

/-- C8: in any produced result, the confidence lies in `[0, 1]` provided the
classifier's documented contract (scores in `[0, 1]`) holds for the consumed
top candidate, and it is exactly 0 when `results` is empty (main.py
lines 63–67; the code copies `float(first.get("score", 0.0))` without
clamping, so the bound is inherited from the service contract).  In this
model every `ℚ` value is finite. -/
theorem confidence_in_unit_interval (openaiKey : Option String) (images : List ImageFile)
    (organs : List String) (no_reject : Bool)
    (capResp : ℕ → Except CaptionServiceError (Option String)) (json : PlantNetJson)
    (hscore : ∀ first rest, json.results = first :: rest →
      ∀ s, first.score = some s → 0 ≤ s ∧ s ≤ 1)
    (sp : Option String) (conf : ℚ) (st : String) (bc : Option (List Caption))
    (h : (identify_plant openaiKey images organs no_reject (Except.ok json) capResp).response =
      Response.result sp conf st bc) :
    0 ≤ conf ∧ conf ≤ 1 ∧ (json.results = [] → conf = 0) := by
  have hconf := (identify_plant_result_fields openaiKey images organs no_reject json capResp
    sp conf st bc h).2
  cases hres : json.results with
  | nil =>
    rw [hres] at hconf
    simp only [extractBest] at hconf
    exact ⟨by rw [hconf], by rw [hconf]; norm_num, fun _ => hconf⟩
  | cons first rest =>
    rw [hres] at hconf
    have hnil : first :: rest = [] → conf = 0 := fun hn => absurd hn (by simp)
    cases hs : first.score with
    | none =>
      simp only [extractBest, hs, Option.getD_none] at hconf
      exact ⟨by rw [hconf], by rw [hconf]; norm_num, hnil⟩
    | some s =>
      have hb := hscore first rest hres s hs
      simp only [extractBest, hs, Option.getD_some] at hconf
      exact ⟨hconf ▸ hb.1, hconf ▸ hb.2, hnil⟩

/-- C8 witness: the concrete high-confidence request yields a confidence in
the unit interval. -/
theorem confidence_in_unit_interval_witness :
    0 ≤ (23 / 25 : ℚ) ∧ (23 / 25 : ℚ) ≤ 1 ∧ (jsonHigh.results = [] → (23 / 25 : ℚ) = 0) :=
  confidence_in_unit_interval none [imgA] [] false capOk jsonHigh
    (by
      intro first rest hfr s hs
      simp only [jsonHigh, List.cons.injEq] at hfr
      obtain ⟨h1, -⟩ := hfr
      rw [← h1, candHigh] at hs
      simp only [Option.some.injEq] at hs
      rw [← hs]
      constructor <;> norm_num)
    (some "Rosa damascena") (23 / 25) "plantnet_only" none
    (by
      rw [identify_plant_ok_eq]
      have hbg : boostGate (extractBest jsonHigh.results).2 none = false := by
        simp [boostGate, truthy]
      rw [hbg]
      simp [extractBest, jsonHigh, candHigh, extractSpecies])

/-- C9: whenever the response carries a caption sequence, that sequence lists
one caption per input image in input order, each tagged with the filename of
its source image (main.py lines 80–102: the loop walks `images` in order and
appends `{"filename": image.filename, ...}`; the embedding makes the calls
sequentially, so completion order cannot reorder them). -/
theorem captions_in_input_order (openaiKey : Option String) (images : List ImageFile)
    (organs : List String) (no_reject : Bool) (pnResp : Except HttpError PlantNetJson)
    (capResp : ℕ → Except CaptionServiceError (Option String))
    (sp : Option String) (conf : ℚ) (st : String) (caps : List Caption)
    (h : (identify_plant openaiKey images organs no_reject pnResp capResp).response =
      Response.result sp conf st (some caps)) :
    caps.map Caption.filename = images.map ImageFile.filename := by
  cases pnResp with
  | error e => rw [identify_plant_error_eq] at h; simp at h
  | ok json =>
    rw [identify_plant_ok_eq] at h
    split at h
    case isTrue hg =>
      rcases hl : captionLoop capResp 0 images with ⟨res, k⟩
      rw [hl] at h
      cases res with
      | error e => simp at h
      | ok caps2 =>
        simp only [Response.result.injEq] at h
        obtain ⟨-, -, -, hbc⟩ := h
        cases hie : caps2.isEmpty with
        | true => rw [hie] at hbc; simp at hbc
        | false =>
          rw [hie] at hbc
          simp only [Bool.false_eq_true, if_false, Option.some.injEq] at hbc
          rw [← hbc]
          exact (captionLoop_ok_spec capResp images 0 caps2 k hl).1
    case isFalse hg =>
      simp only [Response.result.injEq] at h
      exact absurd h.2.2.2 (by simp)

/-- C9 witness: the concrete boosted one-image request returns its single
caption tagged with the source filename. -/
theorem captions_in_input_order_witness :
    ([{ filename := "a.jpg", caption := "No caption returned" }] : List Caption).map
        Caption.filename = [imgA].map ImageFile.filename :=
  captions_in_input_order (some "k") [imgA] [] false (Except.ok jsonLow) capOk
    (some "Ficus lyrata") (2 / 5) "boosted"
    [{ filename := "a.jpg", caption := "No caption returned" }]
    (by
      rw [identify_plant_ok_eq]
      have hbg : boostGate (extractBest jsonLow.results).2 (some "k") = true := by
        simp only [jsonLow, candLow, extractBest, boostGate, truthy, Bool.and_eq_true,
          decide_eq_true_iff]
        exact ⟨by norm_num, rfl⟩
      rw [hbg]
      simp [captionLoop, capOk, captionText, extractBest, jsonLow, candLow, extractSpecies,
        imgA])

/-- C10: when the `results` list is non-empty, a missing `score` field on the
first candidate makes the returned confidence default to 0.0 and a missing
nested `species.scientificNameWithoutAuthor` field makes the returned species
default to `"Unknown"`, the request still producing a result (main.py
lines 65–69: `first.get("score", 0.0)` and
`first.get("species", {}).get("scientificNameWithoutAuthor", "Unknown")`). -/
theorem missing_fields_default (openaiKey : Option String) (images : List ImageFile)
    (organs : List String) (no_reject : Bool)
    (capResp : ℕ → Except CaptionServiceError (Option String)) (first : RawCandidate)
    (rest : List RawCandidate) (sp : Option String) (conf : ℚ) (st : String)
    (bc : Option (List Caption))
    (h : (identify_plant openaiKey images organs no_reject
        (Except.ok { results := first :: rest }) capResp).response =
      Response.result sp conf st bc) :
    (first.score = none → conf = 0) ∧
      ((first.species = none ∨
          ∃ sobj, first.species = some sobj ∧ sobj.scientificNameWithoutAuthor = none) →
        sp = some "Unknown") := by
  obtain ⟨hsp, hconf⟩ := identify_plant_result_fields openaiKey images organs no_reject
    { results := first :: rest } capResp sp conf st bc h
  constructor
  · intro hs
    rw [hconf]
    simp [extractBest, hs]
  · intro hmiss
    rw [hsp]
    rcases hmiss with hnone | ⟨sobj, hsome, hname⟩
    · simp [extractBest, extractSpecies, hnone]
    · simp [extractBest, extractSpecies, hsome, hname]

/-- C10 witness: a concrete candidate with neither `score` nor `species`
still produces a result, defaulting to confidence 0 and species
`"Unknown"`. -/
theorem missing_fields_default_witness :
    (candBare.score = none → (0 : ℚ) = 0) ∧
      ((candBare.species = none ∨
          ∃ sobj, candBare.species = some sobj ∧ sobj.scientificNameWithoutAuthor = none) →
        (some "Unknown" : Option String) = some "Unknown") :=
  missing_fields_default none [imgA] [] false capOk candBare [] (some "Unknown") 0
    "plantnet_only" none
    (by
      rw [identify_plant_ok_eq]
      have hbg : boostGate (extractBest ({ results := [candBare] } : PlantNetJson).results).2
          none = false := by
        simp [boostGate, truthy]
      rw [hbg]
      simp [extractBest, extractSpecies, candBare])

/-! ## Normalizer lemmas (C6) -/

theorem roundAspect_one_le (q : ℚ) (key : ℤ → ℚ) : 1 ≤ roundAspect q key :=
  le_max_right _ 1

theorem roundAspect_le_of_le (q : ℚ) (key : ℤ → ℚ) (n : ℤ) (h1 : 1 ≤ n) (hq : q ≤ (n : ℚ)) :
    roundAspect q key ≤ n := by
  rw [roundAspect]
  apply max_le _ h1
  split
  · exact le_trans (Int.floor_le_ceil q) (Int.ceil_le.mpr hq)
  · exact Int.ceil_le.mpr hq

/-- The rounded dimension is within one pixel of the exactly proportional
value. -/
theorem roundAspect_close (q : ℚ) (key : ℤ → ℚ) (hq : 0 < q) :
    |(roundAspect q key : ℚ) - q| ≤ 1 := by
  rw [abs_le]
  constructor
  · have hfl : q - 1 < (⌊q⌋ : ℚ) := Int.sub_one_lt_floor q
    have hrf : ⌊q⌋ ≤ roundAspect q key := by
      rw [roundAspect]
      apply le_trans _ (le_max_left _ _)
      split
      · exact le_refl _
      · exact Int.floor_le_ceil q
    have hrf2 : ((⌊q⌋ : ℤ) : ℚ) ≤ (roundAspect q key : ℚ) := by exact_mod_cast hrf
    linarith
  · have hrc : roundAspect q key ≤ max ⌈q⌉ 1 := by
      rw [roundAspect]
      apply max_le_max _ (le_refl 1)
      split
      · exact Int.floor_le_ceil q
      · exact le_refl _
    have hrc2 : (roundAspect q key : ℚ) ≤ max ((⌈q⌉ : ℤ) : ℚ) 1 := by
      calc (roundAspect q key : ℚ) ≤ ((max ⌈q⌉ 1 : ℤ) : ℚ) := by exact_mod_cast hrc
        _ = max ((⌈q⌉ : ℤ) : ℚ) 1 := by rw [Int.cast_max]; norm_num
    have hceil : ((⌈q⌉ : ℤ) : ℚ) < q + 1 := Int.ceil_lt_add_one q
    have hmax : max ((⌈q⌉ : ℤ) : ℚ) 1 ≤ q + 1 := max_le (le_of_lt hceil) (by linarith)
    linarith

/-- The size produced by the PIL thumbnail computation: both dimensions stay
within the 1280 box, an image already inside the box is untouched, and the
output is within one pixel of exact proportionality (cross-difference form:
`|w' * h - h' * w| ≤ max w h`, i.e. the two aspect ratios differ by at most
`max w h / (h' * h)`). -/
theorem thumbnailSize_spec (w h : ℕ) (hw : 1 ≤ w) (hh : 1 ≤ h) :
    (thumbnailSize w h).1 ≤ 1280 ∧ (thumbnailSize w h).2 ≤ 1280 ∧
      (w ≤ 1280 → h ≤ 1280 → thumbnailSize w h = (w, h)) ∧
      |((thumbnailSize w h).1 : ℚ) * h - ((thumbnailSize w h).2 : ℚ) * w| ≤
        max (w : ℚ) (h : ℚ) := by
  have hwq : (0 : ℚ) < w := by exact_mod_cast Nat.lt_of_lt_of_le Nat.zero_lt_one hw
  have hhq : (0 : ℚ) < h := by exact_mod_cast Nat.lt_of_lt_of_le Nat.zero_lt_one hh
  have hwne : (w : ℚ) ≠ 0 := ne_of_gt hwq
  have hhne : (h : ℚ) ≠ 0 := ne_of_gt hhq
  by_cases hfit : 1280 ≥ w ∧ 1280 ≥ h
  · simp only [thumbnailSize, if_pos hfit]
    refine ⟨hfit.1, hfit.2, fun _ _ => trivial, ?_⟩
    have hz : ((w : ℕ) : ℚ) * h - ((h : ℕ) : ℚ) * w = 0 := by ring
    rw [hz, abs_zero]
    exact le_max_of_le_left (le_of_lt hwq)
  · simp only [thumbnailSize, if_neg hfit]
    by_cases hbr : (1 : ℚ) ≥ (w : ℚ) / (h : ℚ)
    · rw [if_pos hbr]
      have hqpos : 0 < 1280 * ((w : ℚ) / h) := by positivity
      have hqle : 1280 * ((w : ℚ) / h) ≤ (1280 : ℚ) := by nlinarith
      have hr1 : 1 ≤ roundAspect (1280 * ((w : ℚ) / h))
          (fun n => |(w : ℚ) / h - (n : ℚ) / 1280|) :=
        roundAspect_one_le _ _
      have hrle : roundAspect (1280 * ((w : ℚ) / h))
          (fun n => |(w : ℚ) / h - (n : ℚ) / 1280|) ≤ 1280 :=
        roundAspect_le_of_le _ _ 1280 (by norm_num) (by push_cast; exact hqle)
      refine ⟨Int.toNat_le.mpr hrle, le_refl 1280, fun hw2 hh2 => absurd ⟨hw2, hh2⟩ hfit, ?_⟩
      have hr0 : (0 : ℤ) ≤ roundAspect (1280 * ((w : ℚ) / h))
          (fun n => |(w : ℚ) / h - (n : ℚ) / 1280|) := by omega
      have hcast : (((roundAspect (1280 * ((w : ℚ) / h))
          (fun n => |(w : ℚ) / h - (n : ℚ) / 1280|)).toNat : ℕ) : ℚ) =
          ((roundAspect (1280 * ((w : ℚ) / h))
            (fun n => |(w : ℚ) / h - (n : ℚ) / 1280|) : ℤ) : ℚ) := by
        exact_mod_cast congrArg (fun z : ℤ => (z : ℚ)) (Int.toNat_of_nonneg hr0)
      have hclose := roundAspect_close (1280 * ((w : ℚ) / h))
        (fun n => |(w : ℚ) / h - (n : ℚ) / 1280|) hqpos
      have hqh : (1280 * ((w : ℚ) / h)) * h = 1280 * w := by field_simp
      calc |((((roundAspect (1280 * ((w : ℚ) / h))
              (fun n => |(w : ℚ) / h - (n : ℚ) / 1280|)).toNat, 1280) : ℕ × ℕ).1 : ℚ) * h -
            (((((roundAspect (1280 * ((w : ℚ) / h))
              (fun n => |(w : ℚ) / h - (n : ℚ) / 1280|)).toNat, 1280) : ℕ × ℕ).2 : ℕ) : ℚ) * w|
          = |((roundAspect (1280 * ((w : ℚ) / h))
              (fun n => |(w : ℚ) / h - (n : ℚ) / 1280|) : ℤ) : ℚ) * h - 1280 * w| := by
            rw [hcast]; norm_num
        _ = |(((roundAspect (1280 * ((w : ℚ) / h))
              (fun n => |(w : ℚ) / h - (n : ℚ) / 1280|) : ℤ) : ℚ) -
              1280 * ((w : ℚ) / h)) * h| := by rw [sub_mul, hqh]
        _ = |((roundAspect (1280 * ((w : ℚ) / h))
              (fun n => |(w : ℚ) / h - (n : ℚ) / 1280|) : ℤ) : ℚ) -
              1280 * ((w : ℚ) / h)| * |(h : ℚ)| := abs_mul _ _
        _ ≤ 1 * |(h : ℚ)| := mul_le_mul_of_nonneg_right hclose (abs_nonneg _)
        _ = (h : ℚ) := by rw [one_mul, abs_of_pos hhq]
        _ ≤ max (w : ℚ) (h : ℚ) := le_max_right _ _
    · rw [if_neg hbr]
      have hbr2 : (1 : ℚ) < (w : ℚ) / h := lt_of_not_ge hbr
      have hqpos : 0 < 1280 / ((w : ℚ) / h) := by positivity
      have hqle : 1280 / ((w : ℚ) / h) ≤ (1280 : ℚ) :=
        div_le_self (by norm_num) (le_of_lt hbr2)
      have hr1 : 1 ≤ roundAspect (1280 / ((w : ℚ) / h))
          (fun n => if n = 0 then 0 else |(w : ℚ) / h - 1280 / (n : ℚ)|) :=
        roundAspect_one_le _ _
      have hrle : roundAspect (1280 / ((w : ℚ) / h))
          (fun n => if n = 0 then 0 else |(w : ℚ) / h - 1280 / (n : ℚ)|) ≤ 1280 :=
        roundAspect_le_of_le _ _ 1280 (by norm_num) (by push_cast; exact hqle)
      refine ⟨le_refl 1280, Int.toNat_le.mpr hrle, fun hw2 hh2 => absurd ⟨hw2, hh2⟩ hfit, ?_⟩
      have hr0 : (0 : ℤ) ≤ roundAspect (1280 / ((w : ℚ) / h))
          (fun n => if n = 0 then 0 else |(w : ℚ) / h - 1280 / (n : ℚ)|) := by omega
      have hcast : (((roundAspect (1280 / ((w : ℚ) / h))
          (fun n => if n = 0 then 0 else |(w : ℚ) / h - 1280 / (n : ℚ)|)).toNat : ℕ) : ℚ) =
          ((roundAspect (1280 / ((w : ℚ) / h))
            (fun n => if n = 0 then 0 else |(w : ℚ) / h - 1280 / (n : ℚ)|) : ℤ) : ℚ) := by
        exact_mod_cast congrArg (fun z : ℤ => (z : ℚ)) (Int.toNat_of_nonneg hr0)
      have hclose := roundAspect_close (1280 / ((w : ℚ) / h))
        (fun n => if n = 0 then 0 else |(w : ℚ) / h - 1280 / (n : ℚ)|) hqpos
      have hqw : (1280 / ((w : ℚ) / h)) * w = 1280 * h := by field_simp
      calc |(((1280, (roundAspect (1280 / ((w : ℚ) / h))
              (fun n => if n = 0 then 0 else |(w : ℚ) / h - 1280 / (n : ℚ)|)).toNat) :
              ℕ × ℕ).1 : ℚ) * h -
            ((((1280, (roundAspect (1280 / ((w : ℚ) / h))
              (fun n => if n = 0 then 0 else |(w : ℚ) / h - 1280 / (n : ℚ)|)).toNat) :
              ℕ × ℕ).2 : ℕ) : ℚ) * w|
          = |1280 * (h : ℚ) - ((roundAspect (1280 / ((w : ℚ) / h))
              (fun n => if n = 0 then 0 else |(w : ℚ) / h - 1280 / (n : ℚ)|) : ℤ) : ℚ) * w| := by
            rw [hcast]; norm_num
        _ = |((roundAspect (1280 / ((w : ℚ) / h))
              (fun n => if n = 0 then 0 else |(w : ℚ) / h - 1280 / (n : ℚ)|) : ℤ) : ℚ) * w -
              1280 * (h : ℚ)| := abs_sub_comm _ _
        _ = |(((roundAspect (1280 / ((w : ℚ) / h))
              (fun n => if n = 0 then 0 else |(w : ℚ) / h - 1280 / (n : ℚ)|) : ℤ) : ℚ) -
              1280 / ((w : ℚ) / h)) * w| := by rw [sub_mul, hqw]
        _ = |((roundAspect (1280 / ((w : ℚ) / h))
              (fun n => if n = 0 then 0 else |(w : ℚ) / h - 1280 / (n : ℚ)|) : ℤ) : ℚ) -
              1280 / ((w : ℚ) / h)| * |(w : ℚ)| := abs_mul _ _
        _ ≤ 1 * |(w : ℚ)| := mul_le_mul_of_nonneg_right hclose (abs_nonneg _)
        _ = (w : ℚ) := by rw [one_mul, abs_of_pos hwq]
        _ ≤ max (w : ℚ) (h : ℚ) := le_max_left _ _

/-- C6: for every decodable input image (dimensions at least 1×1), the
normalized image sent to PlantNet has both dimensions at most 1280, is
unchanged in size when the original already fits the 1280×1280 box (never
upscaled), preserves the aspect ratio up to the one-pixel integer rounding
(`|w' * h - h' * w| ≤ max w h`), and is re-encoded as `"RGB"` (3-channel)
`"JPEG"` at fixed quality 90 (main.py lines 38–42). -/
theorem normalizer_output_spec (w h : ℕ) (hw : 1 ≤ w) (hh : 1 ≤ h) :
    (normalizeImage w h).width ≤ 1280 ∧ (normalizeImage w h).height ≤ 1280 ∧
      (w ≤ 1280 → h ≤ 1280 →
        (normalizeImage w h).width = w ∧ (normalizeImage w h).height = h) ∧
      |((normalizeImage w h).width : ℚ) * h - ((normalizeImage w h).height : ℚ) * w| ≤
        max (w : ℚ) (h : ℚ) ∧
      (normalizeImage w h).mode = "RGB" ∧ (normalizeImage w h).format = "JPEG" ∧
      (normalizeImage w h).quality = 90 := by
  obtain ⟨h1, h2, h3, h4⟩ := thumbnailSize_spec w h hw hh
  refine ⟨h1, h2, fun hw2 hh2 => ?_, h4, rfl, rfl, rfl⟩
  have := h3 hw2 hh2
  constructor
  · show (thumbnailSize w h).1 = w
    rw [this]
  · show (thumbnailSize w h).2 = h
    rw [this]

/-- C6 witness: a concrete 4000×3000 image. -/
theorem normalizer_output_spec_witness :
    (normalizeImage 4000 3000).width ≤ 1280 ∧ (normalizeImage 4000 3000).height ≤ 1280 ∧
      (4000 ≤ 1280 → 3000 ≤ 1280 →
        (normalizeImage 4000 3000).width = 4000 ∧ (normalizeImage 4000 3000).height = 3000) ∧
      |((normalizeImage 4000 3000).width : ℚ) * 3000 -
          ((normalizeImage 4000 3000).height : ℚ) * 4000| ≤ max (4000 : ℚ) (3000 : ℚ) ∧
      (normalizeImage 4000 3000).mode = "RGB" ∧ (normalizeImage 4000 3000).format = "JPEG" ∧
      (normalizeImage 4000 3000).quality = 90 := by
  have := normalizer_output_spec 4000 3000 (by norm_num) (by norm_num)
  simpa using this

end PlantPalette
